import Mathlib

/-!
Formal model of the jiminy simulation-engine core, shallowly embedding
`src/core/include/jiminy/core/Engine.h` and `src/core/src/Engine.cc`.

Modelling conventions:
* C++ `float64_t` (IEEE double) scalars are modelled as real numbers; decimal
  floating-point literals are read as the corresponding rationals.  The single
  NaN-dependent branch of `Engine::step` is modelled by an explicit boolean
  flag `xHasNaN` on the stepper state, since reals have no NaN.
* Eigen dynamic vectors are `List ℝ`; fixed 3-vectors and 3x3 matrices are the
  `Vec3` / `Mat3` structures below; spatial forces are `Vec6`.
* External collaborators (pinocchio kinematics/ABA/energy, the model, motors,
  the controller, the boost dopri5 stepper) are not part of the repository
  sources; they are abstracted as fields of the `SysCtx` context structure and
  every theorem quantifies over them.
* The C++ `while` loops of `Engine::step` and `Engine::simulate` are modelled
  by fuel-indexed recursion returning `Option`; `none` stands for fuel
  exhaustion or for the boost failed-step-checker throwing.
-/

noncomputable section

/-- Error codes returned by engine operations (`Types.h`, `result_t`). -/
inductive Result where
  | SUCCESS
  | ERROR_GENERIC
  | ERROR_BAD_INPUT
  | ERROR_INIT_FAILED
  deriving DecidableEq

/-- Machine epsilon of `float64_t` (`Types.h` line 55, `EPS`). -/
def EPS : ℝ := 1 / 2 ^ 52

/-- Smallest timestep the low-level stepper may take (`Engine.cc` line 27). -/
def MIN_STEPPER_TIMESTEP : ℝ := 1 / 10 ^ 12

/-- Smallest simulation timestep (`Engine.cc` line 28). -/
def MIN_SIMULATION_TIMESTEP : ℝ := 1 / 10 ^ 6

/-- Default simulation timestep (`Engine.cc` line 29). -/
def DEFAULT_SIMULATION_TIMESTEP : ℝ := 1 / 10 ^ 3

/-- Largest allowed simulation timestep (`Engine.cc` line 30). -/
def MAX_SIMULATION_TIMESTEP : ℝ := 5 / 10 ^ 3

/-- C `fmod` on real numbers.  For the non-negative numerator and positive
denominator the engine uses it with, truncation towards zero agrees with the
floor used here. -/
def fmod (a b : ℝ) : ℝ := a - b * (⌊a / b⌋ : ℝ)

/-- Fixed-size 3-vector (`vector3_t`). -/
structure Vec3 where
  x : ℝ
  y : ℝ
  z : ℝ

def Vec3.add (a b : Vec3) : Vec3 := ⟨a.x + b.x, a.y + b.y, a.z + b.z⟩

def Vec3.sub (a b : Vec3) : Vec3 := ⟨a.x - b.x, a.y - b.y, a.z - b.z⟩

def Vec3.smul (c : ℝ) (v : Vec3) : Vec3 := ⟨c * v.x, c * v.y, c * v.z⟩

def Vec3.dot (a b : Vec3) : ℝ := a.x * b.x + a.y * b.y + a.z * b.z

/-- Euclidean norm, as Eigen's `.norm()`. -/
def Vec3.norm (v : Vec3) : ℝ := Real.sqrt (v.dot v)

def Vec3.zero : Vec3 := ⟨0, 0, 0⟩

/-- Eigen's `.normalize()`: divide by the norm (only applied to non-zero
vectors by the engine; Lean's `1 / 0 = 0` maps the zero vector to itself). -/
def Vec3.normalize (v : Vec3) : Vec3 := Vec3.smul (1 / v.norm) v

def Vec3.cross (a b : Vec3) : Vec3 :=
  ⟨a.y * b.z - a.z * b.y, a.z * b.x - a.x * b.z, a.x * b.y - a.y * b.x⟩

/-- Row-major 3x3 matrix (`matrix3_t`); `r1`, `r2`, `r3` are the rows. -/
structure Mat3 where
  r1 : Vec3
  r2 : Vec3
  r3 : Vec3

def Mat3.mulVec (m : Mat3) (v : Vec3) : Vec3 := ⟨m.r1.dot v, m.r2.dot v, m.r3.dot v⟩

def Mat3.transpose (m : Mat3) : Mat3 :=
  ⟨⟨m.r1.x, m.r2.x, m.r3.x⟩, ⟨m.r1.y, m.r2.y, m.r3.y⟩, ⟨m.r1.z, m.r2.z, m.r3.z⟩⟩

def Mat3.one : Mat3 := ⟨⟨1, 0, 0⟩, ⟨0, 1, 0⟩, ⟨0, 0, 1⟩⟩

/-- Spatial force: linear and angular parts (`vector6_t` as used for `fext`). -/
structure Vec6 where
  lin : Vec3
  ang : Vec3

def Vec6.zero : Vec6 := ⟨Vec3.zero, Vec3.zero⟩

def Vec6.add (a b : Vec6) : Vec6 := ⟨a.lin.add b.lin, a.ang.add b.ang⟩

/-- Contact options (`Engine.h`, `contactOptions_t`). -/
structure ContactOptions where
  frictionViscous : ℝ
  frictionDry : ℝ
  dryFrictionVelEps : ℝ
  stiffness : ℝ
  damping : ℝ
  transitionEps : ℝ

/-- Joint options (`Engine.h`, `jointOptions_t`). -/
structure JointOptions where
  boundStiffness : ℝ
  boundDamping : ℝ
  boundTransitionEps : ℝ

/-- World options (`Engine.h`, `worldOptions_t`). -/
structure WorldOptions where
  gravity : List ℝ
  groundProfile : Vec3 → ℝ × Vec3

/-- Stepper options (`Engine.h`, `stepperOptions_t`). -/
structure StepperOptions where
  verbose : Bool
  randomSeed : ℕ
  odeSolver : String
  tolAbs : ℝ
  tolRel : ℝ
  dtMax : ℝ
  iterMax : ℤ
  sensorsUpdatePeriod : ℝ
  controllerUpdatePeriod : ℝ
  logInternalStepperSteps : Bool

/-- Telemetry options (`Engine.h`, `telemetryOptions_t`). -/
structure TelemetryOptions where
  enableConfiguration : Bool
  enableVelocity : Bool
  enableAcceleration : Bool
  enableTorque : Bool
  enableEnergy : Bool

/-- Full engine options (`Engine.h`, `engineOptions_t`).  The loosely-typed
`configHolder_t` on-the-wire representation carries exactly these values, so a
single structure models both the holder and the materialised struct. -/
structure EngineOptions where
  telemetry : TelemetryOptions
  stepper : StepperOptions
  world : WorldOptions
  joints : JointOptions
  contacts : ContactOptions

/-- Friction-coefficient branch of `Engine::computeContactDynamics`
(`Engine.cc` lines 1378-1396). -/
def frictionCoeff (co : ContactOptions) (vNorm : ℝ) : ℝ :=
  if vNorm ≥ co.dryFrictionVelEps then
    if vNorm < 1.5 * co.dryFrictionVelEps then
      -2 * (co.frictionDry - co.frictionViscous) * (vNorm / co.dryFrictionVelEps)
        + 3 * co.frictionDry - 2 * co.frictionViscous
    else
      co.frictionViscous
  else
    co.frictionDry * (vNorm / co.dryFrictionVelEps)

/-- `Engine::computeContactDynamics` (`Engine.cc` lines 1337-1414).  The
pinocchio frame data the C++ reads (`oMf[frameId]` rotation/translation and
`getFrameVelocity(...).linear()`) is passed in as `tformFrameRot`, `posFrame`
and `motionFrame`; `groundProfile` is the world-options functor. -/
def computeContactDynamics (co : ContactOptions) (groundProfile : Vec3 → ℝ × Vec3)
    (tformFrameRot : Mat3) (posFrame motionFrame : Vec3) : Vec3 :=
  let ground := groundProfile posFrame
  let zGround := ground.1
  let nGround := Vec3.normalize ground.2
  let depth := (posFrame.z - zGround) * nGround.z
  if depth < 0 then
    let vFrameInWorld := tformFrameRot.mulVec motionFrame
    let vDepth := vFrameInWorld.dot nGround
    let fextNormal := (if vDepth < 0 then -co.damping * vDepth else 0) + -co.stiffness * depth
    let fextInWorld := Vec3.smul fextNormal nGround
    let vTangential := vFrameInWorld.sub (Vec3.smul vDepth nGround)
    let vNorm := vTangential.norm
    let fextTangential := frictionCoeff co vNorm * fextNormal
    let f := fextInWorld.add (Vec3.smul (-fextTangential) vTangential)
    if co.transitionEps > EPS then
      Vec3.smul (Real.tanh (2 * (-depth / co.transitionEps))) f
    else
      f
  else
    Vec3.zero

/-- Dynamics callable as the steppers see it: `(t, x) ↦ dxdt`
(the `system` lambda in `Engine::step`). -/
def SystemFn : Type := ℝ → List ℝ → List ℝ

/-- Outcome of one boost controlled-stepper `try_step` call: the
`controlled_step_result` plus the by-reference arguments after the call. -/
structure TryStepOut where
  success : Bool
  x : List ℝ
  dxdt : List ℝ
  t : ℝ
  dt : ℝ

def addList (a b : List ℝ) : List ℝ := List.zipWith (fun u v => u + v) a b

def smulList (c : ℝ) (v : List ℝ) : List ℝ := v.map (fun u => c * u)

/-- `explicit_euler::try_step` (`Engine.h` lines 52-63): the C++ body is
`t += dt; system(x, dxdt, t); x += dt * dxdt; return success;` — note that the
time is advanced *before* the dynamics callable is evaluated. -/
def explicitEulerTryStep (system : SystemFn) (x _dxdt : List ℝ) (t dt : ℝ) : TryStepOut :=
  let t1 := t + dt
  let dxdt1 := system t1 x
  let x1 := addList x (smulList dt dxdt1)
  ⟨true, x1, dxdt1, t1, dt⟩

/-- Uniform stepper interface of the `stepper_t` boost variant. -/
def StepperImpl : Type := SystemFn → List ℝ → List ℝ → ℝ → ℝ → TryStepOut

/-- The `explicit_euler` alternative of the variant. -/
def explicitEulerStepper : StepperImpl := fun system x dxdt t dt =>
  explicitEulerTryStep system x dxdt t dt

/-- Value stored for one registered impulse force (`Engine.h` line 570):
the map value `(frameName, dt, F)`; the start time is the map key. -/
structure Impulse where
  frameName : String
  dt : ℝ
  F : Vec3

/-- Stepper state (`Engine.h`, `stepperState_t`).  `xHasNaN` models whether
the IEEE vector `x` holds a NaN (reals cannot represent one). -/
structure StepperState where
  iter : ℕ
  t : ℝ
  dt : ℝ
  t_err : ℝ
  x : List ℝ
  dxdt : List ℝ
  u : List ℝ
  uCommand : List ℝ
  uMotor : List ℝ
  uInternal : List ℝ
  fExternal : List Vec6
  xHasNaN : Bool

/-- External collaborators consumed by the engine (pinocchio model/data,
model, motors, controller, boost dopri5) — all outside the repository
sources, so abstracted as functions.  The per-frame geometry functions take
`(q, v)` because the engine refreshes `pncData_` by forward kinematics before
reading them. -/
structure SysCtx where
  njoints : ℕ
  contactFramesIdx : List ℕ
  frameRot : List ℝ → List ℝ → ℕ → Mat3
  framePos : List ℝ → List ℝ → ℕ → Vec3
  frameLinVel : List ℝ → List ℝ → ℕ → Vec3
  framePlacementRot : ℕ → Mat3
  framePlacementTrans : ℕ → Vec3
  frameParent : ℕ → ℕ
  frameIdxOf : String → ℕ
  controllerCommand : ℝ → List ℝ → List ℝ → List ℝ
  internalDynamicsFn : ℝ → List ℝ → List ℝ → List ℝ
  motorsTorques : ℝ → List ℝ → List ℝ → List ℝ → List ℝ → List ℝ
  motors : List (ℕ × ℕ)
  rotorInertia : ℕ → ℝ
  abaFn : List ℝ → List ℝ → List ℝ → List Vec6 → List ℝ
  positionDerivative : List ℝ → List ℝ → ℝ → List ℝ
  pncKineticEnergy : List ℝ → List ℝ → ℝ
  pncPotentialEnergy : List ℝ → ℝ
  positionDerivative0 : List ℝ → List ℝ → List ℝ
  dopri5Stepper : StepperImpl
  maxFailedSteps : ℕ
  callbackFct : ℝ → List ℝ → Bool
  nqRigid : ℕ
  nvRigid : ℕ
  enableFlexibleModel : Bool
  buildFlexibleX0 : List ℝ → List ℝ

/-- Engine state (`Engine.h` lines 169-573, the data members). -/
structure Engine where
  isInit : Bool
  isTelemetryConfigured : Bool
  lockHeld : Bool
  optionsHolder : EngineOptions
  optionsStruct : EngineOptions
  stepperUpdatePeriod : ℝ
  stepperImpl : StepperImpl
  st : StepperState
  stLast : StepperState
  forcesImpulse : List (ℝ × Impulse)
  cursor : ℕ
  forcesProfile : List (String × (ℕ × (ℝ → List ℝ → Vec3)))
  telemetryLog : List (ℝ × Option ℝ)
  nq : ℕ
  nv : ℕ

/-- Insertion into the time-ordered `std::map` of impulses: `forcesImpulse_[t]
= v` inserts a new key in order, or overwrites the value at an existing key. -/
def mapInsert (t : ℝ) (v : Impulse) : List (ℝ × Impulse) → List (ℝ × Impulse)
  | [] => [(t, v)]
  | (t1, v1) :: rest =>
      if t < t1 then (t, v) :: (t1, v1) :: rest
      else if t = t1 then (t, v) :: rest
      else (t1, v1) :: mapInsert t v rest

/-- Looks up the value stored at key `t`. -/
def mapFind (t : ℝ) : List (ℝ × Impulse) → Option Impulse
  | [] => none
  | (t1, v1) :: rest => if t = t1 then some v1 else mapFind t rest

/-- `Engine::kineticEnergy` (`Engine.cc` lines 1547-1564): pinocchio kinetic
energy plus `0.5 * rotorInertia[velIdx] * v[velIdx]^2` for every motor. -/
def Engine.kineticEnergy (ctx : SysCtx) (q v : List ℝ) : ℝ :=
  ctx.pncKineticEnergy q v +
    (ctx.motors.map (fun m =>
      1 / 2 * ctx.rotorInertia m.2 * (v.getD m.2 0) ^ 2)).sum

/-- `Engine::updateTelemetry` (`Engine.cc` lines 183-221): computes the total
energy, pushes the enabled values and flushes a snapshot at the current time.
The log entry keeps the timestamp and the energy value if energy telemetry is
enabled (the other channels do not matter to any claim). -/
def Engine.updateTelemetry (ctx : SysCtx) (e : Engine) : Engine :=
  let q := e.st.x.take e.nq
  let v := e.st.x.drop e.nq
  let energy := Engine.kineticEnergy ctx q v + ctx.pncPotentialEnergy q
  let entry : ℝ × Option ℝ :=
    (e.st.t, if e.optionsStruct.telemetry.enableEnergy then some energy else none)
  { e with telemetryLog := e.telemetryLog ++ [entry] }

/-- `Engine::computeFrameForceOnParentJoint` (`Engine.cc` lines 1321-1335).
The frame rotation in world, the frame placement rotation/translation in the
parent joint frame are pinocchio data, passed through `ctx`. -/
def computeFrameForceOnParentJoint (ctx : SysCtx) (q v : List ℝ) (frameId : ℕ)
    (fextInWorld : Vec3) : Vec6 :=
  let tformFrameRot := ctx.frameRot q v frameId
  let tformFrameJointRot := ctx.framePlacementRot frameId
  let posFrameJoint := ctx.framePlacementTrans frameId
  let lin := tformFrameJointRot.mulVec (tformFrameRot.transpose.mulVec fextInWorld)
  ⟨lin, posFrameJoint.cross lin⟩

/-- Adds a spatial force to the entry `idx` of the per-joint force vector
(the C++ `fext[parentIdx] += pinocchio::Force(...)`). -/
def addForceAt : ℕ → Vec6 → List Vec6 → List Vec6
  | _, _, [] => []
  | 0, f, g :: rest => g.add f :: rest
  | idx + 1, f, g :: rest => g :: addForceAt idx f rest

/-- `Engine::computeExternalForces` (`Engine.cc` lines 819-867): re-zero the
per-joint forces, add the contact reactions, add the impulse force under the
cursor when `tᵢ ≤ t ≤ tᵢ + dtᵢ`, then add every profile force. -/
def Engine.computeExternalForces (ctx : SysCtx) (e : Engine) (t : ℝ)
    (x : List ℝ) : List Vec6 :=
  let q := x.take e.nq
  let v := x.drop e.nq
  let fext0 := List.replicate ctx.njoints Vec6.zero
  let fext1 := ctx.contactFramesIdx.foldl (fun acc frameIdx =>
    let fextInFrame := computeContactDynamics e.optionsStruct.contacts
      e.optionsStruct.world.groundProfile (ctx.frameRot q v frameIdx)
      (ctx.framePos q v frameIdx) (ctx.frameLinVel q v frameIdx)
    addForceAt (ctx.frameParent frameIdx)
      (computeFrameForceOnParentJoint ctx q v frameIdx fextInFrame) acc) fext0
  let fext2 :=
    match e.forcesImpulse.get? e.cursor with
    | none => fext1
    | some (tForceImpulseNext, imp) =>
        if tForceImpulseNext ≤ t ∧ t ≤ tForceImpulseNext + imp.dt then
          let frameIdx := ctx.frameIdxOf imp.frameName
          addForceAt (ctx.frameParent frameIdx)
            (computeFrameForceOnParentJoint ctx q v frameIdx imp.F) fext1
        else fext1
  e.forcesProfile.foldl (fun acc fp =>
    let frameIdx := fp.2.1
    addForceAt (ctx.frameParent frameIdx)
      (computeFrameForceOnParentJoint ctx q v frameIdx (fp.2.2 t x)) acc) fext2

/-- `Engine::computeSystemDynamics` (`Engine.cc` lines 1250-1319).  Forward
kinematics and the sensor refresh are external side effects (captured by
`ctx`); the internal-dynamics assembly, motor torques, ABA and the manifold
configuration derivative are collaborator calls.  Returns the engine with its
torque/force buffers updated together with the derivative `dxdt`. -/
def Engine.computeSystemDynamics (ctx : SysCtx) (e : Engine) (t : ℝ)
    (x : List ℝ) : Engine × List ℝ :=
  let q := x.take e.nq
  let v := x.drop e.nq
  let fext := Engine.computeExternalForces ctx e t x
  let uCommand :=
    if e.optionsStruct.stepper.controllerUpdatePeriod < MIN_SIMULATION_TIMESTEP then
      ctx.controllerCommand t q v
    else e.st.uCommand
  let aLast := e.stLast.dxdt.drop e.nq
  let uMotor := ctx.motorsTorques t q v aLast uCommand
  let uInternal := ctx.internalDynamicsFn t q v
  let u := ctx.motors.foldl (fun acc m =>
    acc.mapIdx (fun i w => if i = m.2 then w + uMotor.getD m.1 0 else w)) uInternal
  let a := ctx.abaFn q v u fext
  let dtab := t - e.stLast.t
  let qDot := ctx.positionDerivative q v dtab
  let e1 := { e with st := { e.st with
    u := u, uCommand := uCommand, uMotor := uMotor, uInternal := uInternal,
    fExternal := fext } }
  (e1, qDot ++ a)

/-- `Engine::setOptions` (`Engine.cc` lines 920-1028).  Validation happens in
source order; note that `stepperUpdatePeriod_` is recomputed *before* the
gravity-size check, exactly as in the source. -/
def Engine.setOptions (e : Engine) (opts : EngineOptions) : Result × Engine :=
  if e.lockHeld then (Result.ERROR_GENERIC, e)
  else
    let dtMax := opts.stepper.dtMax
    if MAX_SIMULATION_TIMESTEP < dtMax ∨ dtMax < MIN_SIMULATION_TIMESTEP then
      (Result.ERROR_BAD_INPUT, e)
    else if opts.stepper.odeSolver ≠ "runge_kutta_dopri5" ∧
        opts.stepper.odeSolver ≠ "explicit_euler" then
      (Result.ERROR_BAD_INPUT, e)
    else
      let sensorsUpdatePeriod := opts.stepper.sensorsUpdatePeriod
      let controllerUpdatePeriod := opts.stepper.controllerUpdatePeriod
      if (EPS < sensorsUpdatePeriod ∧ sensorsUpdatePeriod < MIN_SIMULATION_TIMESTEP) ∨
          (EPS < controllerUpdatePeriod ∧ controllerUpdatePeriod < MIN_SIMULATION_TIMESTEP) then
        (Result.ERROR_BAD_INPUT, e)
      else if sensorsUpdatePeriod > EPS ∧ controllerUpdatePeriod > EPS ∧
          (min (fmod controllerUpdatePeriod sensorsUpdatePeriod)
               (sensorsUpdatePeriod - fmod controllerUpdatePeriod sensorsUpdatePeriod) > EPS ∧
           min (fmod sensorsUpdatePeriod controllerUpdatePeriod)
               (controllerUpdatePeriod - fmod sensorsUpdatePeriod controllerUpdatePeriod) > EPS) then
        (Result.ERROR_BAD_INPUT, e)
      else if opts.contacts.dryFrictionVelEps < 0 then (Result.ERROR_BAD_INPUT, e)
      else if opts.contacts.transitionEps < 0 then (Result.ERROR_BAD_INPUT, e)
      else if opts.joints.boundTransitionEps < 0 then (Result.ERROR_BAD_INPUT, e)
      else
        let sup :=
          if sensorsUpdatePeriod < MIN_SIMULATION_TIMESTEP then controllerUpdatePeriod
          else if controllerUpdatePeriod < MIN_SIMULATION_TIMESTEP then sensorsUpdatePeriod
          else min sensorsUpdatePeriod controllerUpdatePeriod
        let e1 := { e with stepperUpdatePeriod := sup }
        if opts.world.gravity.length ≠ 6 then (Result.ERROR_BAD_INPUT, e1)
        else
          (Result.SUCCESS, { e1 with optionsHolder := opts, optionsStruct := opts })

/-- `Engine::registerForceImpulse` (`Engine.cc` lines 881-897). -/
def Engine.registerForceImpulse (e : Engine) (frameName : String) (t dt : ℝ)
    (F : Vec3) : Result × Engine :=
  if e.lockHeld then (Result.ERROR_GENERIC, e)
  else
    (Result.SUCCESS,
     { e with forcesImpulse := mapInsert t ⟨frameName, dt, F⟩ e.forcesImpulse })

/-- `Engine::registerForceProfile` (`Engine.cc` lines 899-913). -/
def Engine.registerForceProfile (e : Engine) (frameName : String)
    (forceFct : ℝ → List ℝ → Vec3) : Result × Engine :=
  if e.lockHeld then (Result.ERROR_GENERIC, e)
  else
    (Result.SUCCESS,
     { e with forcesProfile := e.forcesProfile ++ [(frameName, (0, forceFct))] })

/-- `Engine::stop` (`Engine.cc` lines 794-809): release the model lock and
reset the telemetry configuration; the recorded data buffer is kept. -/
def Engine.stop (e : Engine) : Engine :=
  if e.lockHeld then
    { e with lockHeld := false, isTelemetryConfigured := false }
  else e

/-- The `system` lambda handed to the stepper inside `Engine::step`: it calls
`computeSystemDynamics` and returns the derivative.  The transient buffer
writes of the stepper's internal stage evaluations are not threaded. -/
def systemOf (ctx : SysCtx) (e : Engine) : SystemFn := fun tIn xIn =>
  (Engine.computeSystemDynamics ctx e tIn xIn).2

/-- Mutable state of the integration loop of `Engine::step`: the engine, the
*local* time copy `t` (written back to `stepperState_.t` only on success) and
the consecutive-failure count of the boost `failed_step_checker`. -/
structure LoopSt where
  eng : Engine
  t : ℝ
  failCount : ℕ

/-- Commit of one accepted stepper step (`Engine.cc` lines 714-733 and
758-767): write back the by-reference buffers, validate the time, bump the
iteration counter, log if every internal step is logged, then snapshot the
state to `stepperStateLast_`. -/
def commitStep (ctx : SysCtx) (e : Engine) (r : TryStepOut) : Engine :=
  let e1 := { e with st := { e.st with
    x := r.x, dxdt := r.dxdt, dt := r.dt, t := r.t, iter := e.st.iter + 1 } }
  let e2 := if e1.optionsStruct.stepper.logInternalStepperSteps then
      Engine.updateTelemetry ctx e1
    else e1
  { e2 with stLast := e2.st }

/-- Impulse-cursor advance and next-impulse horizon (`Engine.cc` lines
636-661): move past an elapsed event, then the next breakpoint is the
cursor's start time if still ahead, else the following event's start time;
defaults to `tEnd`. -/
def impulseHorizon (imps : List (ℝ × Impulse)) (cursor : ℕ) (t tEnd : ℝ) :
    ℕ × ℝ :=
  let dflt : ℝ × Impulse := (0, ⟨"", 0, Vec3.zero⟩)
  if cursor < imps.length then
    let entry := imps.getD cursor dflt
    let cursor1 := if t > entry.1 + entry.2.dt then cursor + 1 else cursor
    if cursor1 < imps.length then
      let tTmp := (imps.getD cursor1 dflt).1
      if tTmp > t then (cursor1, tTmp)
      else if cursor1 + 1 < imps.length then (cursor1, (imps.getD (cursor1 + 1) dflt).1)
      else (cursor1, tEnd)
    else (cursor1, tEnd)
  else (cursor, tEnd)

/-- Inner adaptive loop of the period-driven branch (`Engine.cc` lines
698-739): repeat `try_step` until the aim point `tNext` is reached, adjusting
`dt` to hit breakpoints exactly, committing on success and counting
consecutive failures otherwise.  `none` models the failure checker throwing
or fuel running out. -/
def tryStepsTo (ctx : SysCtx) : ℕ → ℝ → LoopSt → Option LoopSt
  | 0, _, _ => none
  | fuel + 1, tNext, s =>
    if tNext - s.t > EPS then
      let e := s.eng
      let dt0 := min (min e.st.dt (tNext - s.t)) e.optionsStruct.stepper.dtMax
      let dt1 := if tNext - (s.t + dt0) < MIN_STEPPER_TIMESTEP then tNext - s.t else dt0
      let r := e.stepperImpl (systemOf ctx e) e.st.x e.st.dxdt s.t dt1
      if r.success then
        tryStepsTo ctx fuel tNext ⟨commitStep ctx e r, r.t, 0⟩
      else
        let failCount1 := s.failCount + 1
        if ctx.maxFailedSteps ≤ failCount1 then none
        else
          let e1 := { e with st := { e.st with x := r.x, dxdt := r.dxdt, dt := r.dt } }
          tryStepsTo ctx fuel tNext ⟨e1, r.t, failCount1⟩
    else some s

/-- Retry loop of the free-running branch (`Engine.cc` lines 750-773):
`try_step` until one success. -/
def tryUntilSuccess (ctx : SysCtx) : ℕ → LoopSt → Option LoopSt
  | 0, _ => none
  | fuel + 1, s =>
    let e := s.eng
    let r := e.stepperImpl (systemOf ctx e) e.st.x e.st.dxdt s.t e.st.dt
    if r.success then some ⟨commitStep ctx e r, r.t, 0⟩
    else
      let failCount1 := s.failCount + 1
      if ctx.maxFailedSteps ≤ failCount1 then none
      else
        let e1 := { e with st := { e.st with x := r.x, dxdt := r.dxdt, dt := r.dt } }
        tryUntilSuccess ctx fuel ⟨e1, r.t, failCount1⟩

/-- Outer integration loop of `Engine::step` (`Engine.cc` lines 594-775):
while `tEnd - t > EPS`, refresh sensors/controller at period boundaries,
advance the impulse cursor, compute the next breakpoint and integrate to it. -/
def stepLoop (ctx : SysCtx) : ℕ → ℝ → LoopSt → Option LoopSt
  | 0, _, _ => none
  | fuel + 1, tEnd, s =>
    if tEnd - s.t > EPS then
      let e := s.eng
      let q := e.st.x.take e.nq
      let v := e.st.x.drop e.nq
      -- (a) discrete-time refresh; the sensor update (lines 601-610) is a
      -- model-side effect with no engine field, so only its controller
      -- counterpart (lines 613-632) changes the state here.
      let eA :=
        if e.stepperUpdatePeriod > MIN_SIMULATION_TIMESTEP then
          if e.optionsStruct.stepper.controllerUpdatePeriod > EPS then
            let p := e.optionsStruct.stepper.controllerUpdatePeriod
            let dtNextControllerUpdatePeriod := p - fmod s.t p
            if dtNextControllerUpdatePeriod < MIN_SIMULATION_TIMESTEP ∨
                p - dtNextControllerUpdatePeriod < MIN_SIMULATION_TIMESTEP then
              let e1 := { e with st := { e.st with
                uCommand := ctx.controllerCommand s.t q v } }
              if e1.optionsStruct.stepper.odeSolver ≠ "explicit_euler" then
                let pr := Engine.computeSystemDynamics ctx e1 s.t e1.st.x
                { pr.1 with st := { pr.1.st with dxdt := pr.2 } }
              else e1
            else e
          else e
        else e
      -- (b) impulse horizon and cursor advance
      let ch := impulseHorizon eA.forcesImpulse eA.cursor s.t tEnd
      let eB := { eA with cursor := ch.1 }
      let tForceImpulseNext := ch.2
      -- (c) raise dt back if a previous breakpoint shrank it (line 665)
      let eC := { eB with st := { eB.st with
        dt := max eB.st.dt DEFAULT_SIMULATION_TIMESTEP } }
      if eC.stepperUpdatePeriod > EPS then
        let p := eC.stepperUpdatePeriod
        let dtNextUpdatePeriod := p - fmod s.t p
        let dtNextGlobal0 :=
          if dtNextUpdatePeriod < MIN_SIMULATION_TIMESTEP then
            min (dtNextUpdatePeriod + p) (tForceImpulseNext - s.t)
          else min dtNextUpdatePeriod (tForceImpulseNext - s.t)
        let dtNextGlobal :=
          if tEnd - s.t - EPS < dtNextGlobal0 then tEnd - s.t else dtNextGlobal0
        let tNext := s.t + dtNextGlobal
        match tryStepsTo ctx (fuel + 1) tNext { s with eng := eC } with
        | none => none
        | some s1 => stepLoop ctx fuel tEnd s1
      else
        let dtv := min (min (min eC.st.dt eC.optionsStruct.stepper.dtMax)
          (tEnd - s.t)) (tForceImpulseNext - s.t)
        let eD := { eC with st := { eC.st with dt := dtv } }
        match tryUntilSuccess ctx (fuel + 1) { s with eng := eD } with
        | none => none
        | some s1 => stepLoop ctx fuel tEnd s1
    else some s

/-- Default-step-size resolution of `Engine::step` (`Engine.cc` lines
540-560): a step size below `EPS` requests the controller update period, else
the sensor update period, else `dtMax`. -/
def Engine.resolveStepSize (e : Engine) (stepSize : ℝ) : ℝ :=
  if stepSize < EPS then
    if e.optionsStruct.stepper.controllerUpdatePeriod > EPS then
      e.optionsStruct.stepper.controllerUpdatePeriod
    else if e.optionsStruct.stepper.sensorsUpdatePeriod > EPS then
      e.optionsStruct.stepper.sensorsUpdatePeriod
    else e.optionsStruct.stepper.dtMax
  else stepSize

/-- `Engine::step` (`Engine.cc` lines 503-792). -/
def Engine.step (ctx : SysCtx) (fuel : ℕ) (e : Engine) (stepSizeIn : ℝ) :
    Option (Result × Engine) :=
  let rc0 := if ¬e.lockHeld then Result.ERROR_GENERIC else Result.SUCCESS
  let rc1 := if ¬e.isInit then Result.ERROR_INIT_FAILED else rc0
  if rc1 = Result.SUCCESS then
    if e.st.xHasNaN then some (Result.ERROR_GENERIC, e)
    else if stepSizeIn > EPS ∧ stepSizeIn < MIN_SIMULATION_TIMESTEP then
      some (Result.ERROR_BAD_INPUT, e)
    else
      let stepSize := e.resolveStepSize stepSizeIn
      let stepSize_true := stepSize - e.st.t_err
      let tEnd := e.st.t + stepSize_true
      let e1 := { e with st := { e.st with t_err := (tEnd - e.st.t) - stepSize_true } }
      match stepLoop ctx fuel tEnd ⟨e1, e1.st.t, 0⟩ with
      | none => none
      | some s1 =>
          let e2 := { s1.eng with st := { s1.eng.st with t := tEnd } }
          let e3 := if ¬e2.optionsStruct.stepper.logInternalStepperSteps then
              Engine.updateTelemetry ctx e2
            else e2
          some (Result.SUCCESS, e3)
  else some (rc1, e)

/-- Private `Engine::reset` (`Engine.cc` lines 223-246): optionally clear the
force registers; model/controller resets and RNG re-seeding are external side
effects; always stop. -/
def Engine.resetEngine (e : Engine) (_resetRandomNumbers : Bool)
    (resetDynamicForceRegister : Bool) : Engine :=
  let e1 := if resetDynamicForceRegister then
      { e with forcesImpulse := [], cursor := 0, forcesProfile := [] }
    else e
  Engine.stop e1

/-- `Engine::start` (`Engine.cc` lines 253-426). -/
def Engine.start (ctx : SysCtx) (e : Engine) (xInit : List ℝ)
    (isStateTheoretical resetRandomNumbers resetDynamicForceRegister : Bool) :
    Result × Engine :=
  let rc0 := if ¬e.isInit then Result.ERROR_INIT_FAILED else Result.SUCCESS
  let rc1 :=
    if (isStateTheoretical = true ∧ xInit.length ≠ ctx.nqRigid + ctx.nvRigid) ∨
        (isStateTheoretical = false ∧ xInit.length ≠ e.nq + e.nv) then
      Result.ERROR_BAD_INPUT
    else rc0
  if rc1 = Result.SUCCESS then
    let e1 := Engine.resetEngine e resetRandomNumbers resetDynamicForceRegister
    -- model_->getLock succeeds since the reset above released any lock
    let e2 := { e1 with lockHeld := true }
    -- gravity and rotor-inertia propagation are pinocchio-model side effects
    let x0 := if isStateTheoretical ∧ ctx.enableFlexibleModel then
        ctx.buildFlexibleX0 xInit
      else xInit
    let e3 := { e2 with cursor := 0 }
    let stepperSel := if e3.optionsStruct.stepper.odeSolver = "explicit_euler" then
        explicitEulerStepper
      else ctx.dopri5Stepper
    let dt0 := if e3.stepperUpdatePeriod > MIN_SIMULATION_TIMESTEP then
        e3.stepperUpdatePeriod
      else e3.optionsStruct.stepper.dtMax
    let q0 := x0.take e3.nq
    let v0 := x0.drop e3.nq
    -- stepperState_t::initialize: note that t_err is deliberately not reset
    let stInit : StepperState :=
      { iter := 0, t := 0,
        dt := dt0, t_err := e3.st.t_err, x := x0,
        dxdt := ctx.positionDerivative0 q0 v0 ++ List.replicate e3.nv 0,
        u := List.replicate e3.nv 0,
        uCommand := List.replicate ctx.motors.length 0,
        uMotor := List.replicate ctx.motors.length 0,
        uInternal := List.replicate e3.nv 0,
        fExternal := List.replicate ctx.njoints Vec6.zero, xHasNaN := false }
    let e4 := { e3 with stepperImpl := stepperSel, st := stInit }
    -- initial dynamics evaluation (lines 375-407)
    let fext := Engine.computeExternalForces ctx e4 0 x0
    let uCommand := ctx.controllerCommand 0 q0 v0
    let a0 := e4.st.dxdt.drop e3.nq
    let uMotor := ctx.motorsTorques 0 q0 v0 a0 uCommand
    let uInternal := ctx.internalDynamicsFn 0 q0 v0
    let u := ctx.motors.foldl (fun acc m =>
      acc.mapIdx (fun i w => if i = m.2 then w + uMotor.getD m.1 0 else w)) uInternal
    let a := ctx.abaFn q0 v0 u fext
    let e5 := { e4 with st := { e4.st with
      fExternal := fext, uCommand := uCommand, uMotor := uMotor,
      uInternal := uInternal, u := u, dxdt := e4.st.dxdt.take e3.nq ++ a } }
    -- telemetry configuration, header write (clears the recorder data),
    -- initial snapshot, and last-state backup (lines 410-423)
    let e6 := { e5 with isTelemetryConfigured := true, telemetryLog := [] }
    let e7 := Engine.updateTelemetry ctx e6
    (Result.SUCCESS, { e7 with stLast := e7.st })
  else (rc1, e)

/-- Integration loop of `Engine::simulate` (`Engine.cc` lines 453-494). -/
def simulateLoop (ctx : SysCtx) : ℕ → Engine → ℝ → Option (Result × Engine)
  | 0, _, _ => none
  | fuel + 1, e, tEnd =>
    if tEnd - e.st.t < MIN_SIMULATION_TIMESTEP then some (Result.SUCCESS, e)
    else if ¬ctx.callbackFct e.st.t e.st.x then some (Result.SUCCESS, e)
    else if e.optionsStruct.stepper.iterMax > 0 ∧
        e.optionsStruct.stepper.iterMax.toNat ≤ e.stLast.iter then
      some (Result.SUCCESS, e)
    else
      let stepSize := if e.stepperUpdatePeriod > 0 then
          min e.stepperUpdatePeriod (tEnd - e.st.t)
        else min e.optionsStruct.stepper.dtMax (tEnd - e.st.t)
      match Engine.step ctx (fuel + 1) e stepSize with
      | none => none
      | some (rc, e1) =>
          if rc = Result.SUCCESS then simulateLoop ctx fuel e1 tEnd
          else some (rc, e1)

/-- `Engine::simulate` (`Engine.cc` lines 428-501).  Note that `stop` runs on
every exit path, including the early input rejections. -/
def Engine.simulate (ctx : SysCtx) (fuel : ℕ) (e : Engine) (tEnd : ℝ)
    (xInit : List ℝ) (isStateTheoretical : Bool) : Option (Result × Engine) :=
  let rc0 := if ¬e.isInit then Result.ERROR_INIT_FAILED else Result.SUCCESS
  let rc1 := if tEnd < 5 / 10 ^ 3 then Result.ERROR_BAD_INPUT else rc0
  if rc1 = Result.SUCCESS then
    let pr := Engine.start ctx e xInit isStateTheoretical false false
    if pr.1 = Result.SUCCESS then
      match simulateLoop ctx fuel pr.2 tEnd with
      | none => none
      | some (rc2, e2) => some (rc2, Engine.stop e2)
    else some (pr.1, Engine.stop pr.2)
  else some (rc1, Engine.stop e)

/-- Number of map entries stored under the key `t`. -/
def countKey (t : ℝ) (l : List (ℝ × Impulse)) : ℕ :=
  l.countP (fun p => p.1 = t)

/-- Friction coefficient as stated by the specification, as a function of
`s = ‖vT‖ / dryFrictionVelEps` — the comparison definition for the piecewise
law of `frictionCoeff`. -/
def muSpec (frictionDry frictionViscous s : ℝ) : ℝ :=
  if s < 1 then frictionDry * s
  else if s < 1.5 then
    -2 * (frictionDry - frictionViscous) * s + 3 * frictionDry - 2 * frictionViscous
  else frictionViscous

/-- Default ground profile: flat ground at height zero, upward unit normal
(`Engine.h` lines 251-255). -/
def defaultGroundProfile : Vec3 → ℝ × Vec3 := fun _ => (0, ⟨0, 0, 1⟩)

/-- `Engine::getDefaultOptions` (`Engine.h` lines 188-359). -/
def getDefaultOptions : EngineOptions :=
  { telemetry := ⟨true, true, true, true, true⟩,
    stepper :=
      { verbose := false, randomSeed := 0,
        odeSolver := "runge_kutta_dopri5", tolAbs := 1 / 10 ^ 5,
        tolRel := 1 / 10 ^ 4, dtMax := 1 / 10 ^ 3, iterMax := 100000,
        sensorsUpdatePeriod := 0, controllerUpdatePeriod := 0,
        logInternalStepperSteps := false },
    world :=
      { gravity := [0, 0, -981 / 100, 0, 0, 0],
        groundProfile := defaultGroundProfile },
    joints := ⟨10 ^ 5, 10 ^ 4, 1 / 10 ^ 2⟩,
    contacts :=
      { frictionViscous := 8 / 10, frictionDry := 1,
        dryFrictionVelEps := 1 / 10 ^ 2, stiffness := 10 ^ 6,
        damping := 2 * 10 ^ 3, transitionEps := 1 / 10 ^ 3 } }

/-- Trivial collaborator context used to instantiate theorems on concrete
engines. -/
def ctx0 : SysCtx :=
  { njoints := 0, contactFramesIdx := [],
    frameRot := fun _ _ _ => Mat3.one, framePos := fun _ _ _ => Vec3.zero,
    frameLinVel := fun _ _ _ => Vec3.zero,
    framePlacementRot := fun _ => Mat3.one,
    framePlacementTrans := fun _ => Vec3.zero,
    frameParent := fun _ => 0, frameIdxOf := fun _ => 0,
    controllerCommand := fun _ _ _ => [],
    internalDynamicsFn := fun _ _ _ => [],
    motorsTorques := fun _ _ _ _ _ => [],
    motors := [], rotorInertia := fun _ => 0,
    abaFn := fun _ _ _ _ => [],
    positionDerivative := fun _ _ _ => [],
    pncKineticEnergy := fun _ _ => 0, pncPotentialEnergy := fun _ => 0,
    positionDerivative0 := fun _ _ => [],
    dopri5Stepper := explicitEulerStepper,
    maxFailedSteps := 500,
    callbackFct := fun _ _ => true,
    nqRigid := 0, nvRigid := 0, enableFlexibleModel := false,
    buildFlexibleX0 := fun x => x }

/-- All-zero stepper state. -/
def stepperState0 : StepperState :=
  { iter := 0, t := 0, dt := 0, t_err := 0, x := [], dxdt := [], u := [],
    uCommand := [], uMotor := [], uInternal := [], fExternal := [],
    xHasNaN := false }

/-- Freshly constructed, not yet initialized engine. -/
def eng0 : Engine :=
  { isInit := false, isTelemetryConfigured := false, lockHeld := false,
    optionsHolder := getDefaultOptions, optionsStruct := getDefaultOptions,
    stepperUpdatePeriod := 0, stepperImpl := explicitEulerStepper,
    st := stepperState0, stLast := stepperState0, forcesImpulse := [],
    cursor := 0, forcesProfile := [], telemetryLog := [], nq := 0, nv := 0 }

/-- Initialized engine with no simulation running. -/
def engInit : Engine := { eng0 with isInit := true }

/-- Initialized engine with a simulation running (model lock held). -/
def engRun : Engine := { eng0 with isInit := true, lockHeld := true }

/-- Running engine whose Kahan error buffer exactly cancels a
`MIN_SIMULATION_TIMESTEP` step request, so that the integration loop of
`step` terminates immediately. -/
def engW : Engine :=
  { eng0 with
    isInit := true, lockHeld := true,
    st := { stepperState0 with t_err := MIN_SIMULATION_TIMESTEP } }

/-- Kahan compensation value written by `engW.step MIN_SIMULATION_TIMESTEP`
just before its integration loop. -/
def tErrW : ℝ :=
  (engW.st.t + (engW.resolveStepSize MIN_SIMULATION_TIMESTEP - engW.st.t_err) -
    engW.st.t) -
  (engW.resolveStepSize MIN_SIMULATION_TIMESTEP - engW.st.t_err)

/-- Loop state reached by `engW` right before the integration loop. -/
def sW : LoopSt :=
  ⟨{ engW with st := { engW.st with t_err := tErrW } }, engW.st.t, 0⟩

/-- Default options with the out-of-range `dtMax = 0`. -/
def optsBadDtMax : EngineOptions :=
  { getDefaultOptions with
    stepper := { getDefaultOptions.stepper with dtMax := 0 } }

/-- Engine with one registered impulse `(t = 0.5, dt = 0.01, F = [10,0,0])`
and the cursor on it. -/
def engImp : Engine :=
  { eng0 with
    forcesImpulse := [(1 / 2, ⟨"frame", 1 / 100, ⟨10, 0, 0⟩⟩)], cursor := 0 }

/-- C1 (amended): `explicit_euler::try_step` always returns success, first
advances the time `t := t + dt`, then evaluates the dynamics callable at the
post-step time `t + dt` on the pre-step state, and finally updates
`x := x + dt · f(t + dt, x)`; `dt` is left unchanged. -/
theorem explicit_euler_try_step_behavior (system : SystemFn)
    (x dxdt : List ℝ) (t dt : ℝ) :
    explicitEulerTryStep system x dxdt t dt =
      ⟨true, addList x (smulList dt (system (t + dt) x)), system (t + dt) x,
        t + dt, dt⟩ := rfl

/-- C1 counterexample: for the time-dependent dynamics `f(t, x) = [t]` at
`x = [0]`, `t = 0`, `dt = 1`, the update `x := x + dt · f(t, x)` claimed for
`try_step`, with `f` evaluated at the pre-step time, would produce `[0]`, but
`try_step` produces `[1]`: the dynamics is evaluated at the post-step time. -/
theorem explicit_euler_try_step_claim_false :
    (explicitEulerTryStep (fun tq _ => [tq]) [0] [0] 0 1).x = [1] ∧
      (explicitEulerTryStep (fun tq _ => [tq]) [0] [0] 0 1).x ≠
        addList [0] (smulList 1 ((fun (tq : ℝ) (_ : List ℝ) => [tq]) 0 [0])) := by
  constructor
  · norm_num [explicitEulerTryStep, addList, smulList]
  · norm_num [explicitEulerTryStep, addList, smulList]

/-- C8: with energy telemetry enabled, the energy value written at a
telemetry snapshot is the pinocchio kinetic energy of `(q, v)`, plus
`½·rotorInertia[velIdx k]·v[velIdx k]²` for every motor `k`, plus the
pinocchio potential energy of `q`. -/
theorem updateTelemetry_energy (ctx : SysCtx) (e : Engine)
    (hE : e.optionsStruct.telemetry.enableEnergy = true) :
    (Engine.updateTelemetry ctx e).telemetryLog = e.telemetryLog ++
      [(e.st.t,
        some (ctx.pncKineticEnergy (e.st.x.take e.nq) (e.st.x.drop e.nq) +
          (ctx.motors.map (fun m => 1 / 2 * ctx.rotorInertia m.2 *
            ((e.st.x.drop e.nq).getD m.2 0) ^ 2)).sum +
          ctx.pncPotentialEnergy (e.st.x.take e.nq)))] := by
  simp [Engine.updateTelemetry, Engine.kineticEnergy, hE]

/-- C8 witness: the energy formula instantiated on a concrete engine with
energy telemetry enabled. -/
theorem updateTelemetry_energy_witness :
    (Engine.updateTelemetry ctx0 eng0).telemetryLog = eng0.telemetryLog ++
      [(eng0.st.t,
        some (ctx0.pncKineticEnergy (eng0.st.x.take eng0.nq) (eng0.st.x.drop eng0.nq) +
          (ctx0.motors.map (fun m => 1 / 2 * ctx0.rotorInertia m.2 *
            ((eng0.st.x.drop eng0.nq).getD m.2 0) ^ 2)).sum +
          ctx0.pncPotentialEnergy (eng0.st.x.take eng0.nq)))] :=
  updateTelemetry_energy ctx0 eng0 rfl

/-- C6 (amended): `step` on a not-initialized engine returns
`ERROR_INIT_FAILED` (the later initialization check overwrites the
`ERROR_GENERIC` of the missing-lock check); `step` on an initialized engine
with no simulation running, and `setOptions` / `registerForceImpulse` /
`registerForceProfile` while a simulation runs, return `ERROR_GENERIC`.  In
every case the engine state is untouched. -/
theorem lifecycle_error_returns :
    (∀ (ctx : SysCtx) (fuel : ℕ) (e : Engine) (sz : ℝ), e.isInit = false →
      Engine.step ctx fuel e sz = some (Result.ERROR_INIT_FAILED, e)) ∧
    (∀ (ctx : SysCtx) (fuel : ℕ) (e : Engine) (sz : ℝ), e.isInit = true →
      e.lockHeld = false →
      Engine.step ctx fuel e sz = some (Result.ERROR_GENERIC, e)) ∧
    (∀ (e : Engine) (opts : EngineOptions), e.lockHeld = true →
      Engine.setOptions e opts = (Result.ERROR_GENERIC, e)) ∧
    (∀ (e : Engine) (n : String) (ti dti : ℝ) (F : Vec3), e.lockHeld = true →
      Engine.registerForceImpulse e n ti dti F = (Result.ERROR_GENERIC, e)) ∧
    (∀ (e : Engine) (n : String) (fct : ℝ → List ℝ → Vec3), e.lockHeld = true →
      Engine.registerForceProfile e n fct = (Result.ERROR_GENERIC, e)) := by
  refine ⟨?_, ?_, ?_, ?_, ?_⟩
  · intro ctx fuel e sz h
    simp [Engine.step, h]
  · intro ctx fuel e sz h1 h2
    simp [Engine.step, h1, h2]
  · intro e opts h
    simp [Engine.setOptions, h]
  · intro e n ti dti F h
    simp [Engine.registerForceImpulse, h]
  · intro e n fct h
    simp [Engine.registerForceProfile, h]

/-- C6 counterexample: on a freshly constructed (not initialized) engine,
`step` returns `ERROR_INIT_FAILED`, not the claimed `ERROR_GENERIC`. -/
theorem step_uninitialized_claim_false :
    Engine.step ctx0 1 eng0 1 = some (Result.ERROR_INIT_FAILED, eng0) ∧
      Result.ERROR_INIT_FAILED ≠ Result.ERROR_GENERIC := by
  refine ⟨rfl, by decide⟩

/-- C6 witness: each branch of the lifecycle-error theorem instantiated on a
concrete engine. -/
theorem lifecycle_error_returns_witness :
    Engine.step ctx0 1 eng0 1 = some (Result.ERROR_INIT_FAILED, eng0) ∧
      Engine.step ctx0 1 engInit 1 = some (Result.ERROR_GENERIC, engInit) ∧
      Engine.setOptions engRun getDefaultOptions = (Result.ERROR_GENERIC, engRun) ∧
      Engine.registerForceImpulse engRun "frame" (1 / 2) (1 / 100) ⟨10, 0, 0⟩ =
        (Result.ERROR_GENERIC, engRun) ∧
      Engine.registerForceProfile engRun "frame" (fun _ _ => Vec3.zero) =
        (Result.ERROR_GENERIC, engRun) :=
  ⟨lifecycle_error_returns.1 ctx0 1 eng0 1 rfl,
   lifecycle_error_returns.2.1 ctx0 1 engInit 1 rfl rfl,
   lifecycle_error_returns.2.2.1 engRun getDefaultOptions rfl,
   lifecycle_error_returns.2.2.2.1 engRun "frame" (1 / 2) (1 / 100) ⟨10, 0, 0⟩ rfl,
   lifecycle_error_returns.2.2.2.2 engRun "frame" (fun _ _ => Vec3.zero) rfl⟩

/-- Inserting twice under the same key keeps only the last value. -/
theorem mapInsert_mapInsert_same (t : ℝ) (v1 v2 : Impulse)
    (l : List (ℝ × Impulse)) :
    mapInsert t v2 (mapInsert t v1 l) = mapInsert t v2 l := by
  induction l with
  | nil => simp [mapInsert]
  | cons hd tl ih =>
      obtain ⟨t1, w⟩ := hd
      by_cases h1 : t < t1
      · simp [mapInsert, h1, lt_irrefl]
      · by_cases h2 : t = t1
        · simp [mapInsert, h1, h2, lt_irrefl]
        · simp [mapInsert, h1, h2, ih]

/-- `mapFind` retrieves the value just inserted under the same key. -/
theorem mapFind_mapInsert (t : ℝ) (v : Impulse) (l : List (ℝ × Impulse)) :
    mapFind t (mapInsert t v l) = some v := by
  induction l with
  | nil => simp [mapInsert, mapFind]
  | cons hd tl ih =>
      obtain ⟨t1, w⟩ := hd
      by_cases h1 : t < t1
      · simp [mapInsert, mapFind, h1]
      · by_cases h2 : t = t1
        · simp [mapInsert, mapFind, h1, h2]
        · simp [mapInsert, mapFind, h1, h2, ih]

/-- A register without the key `t` counts zero entries under `t`. -/
theorem countKey_eq_zero_of_forall (t : ℝ) (l : List (ℝ × Impulse))
    (h : ∀ p ∈ l, p.1 ≠ t) : countKey t l = 0 := by
  rw [countKey, List.countP_eq_zero]
  intro a ha
  simpa using h a ha

/-- Inserting into a strictly key-sorted register leaves exactly one entry
under the inserted key. -/
theorem countKey_mapInsert_sorted (t : ℝ) (v : Impulse)
    (l : List (ℝ × Impulse)) (hs : l.Pairwise (fun a b => a.1 < b.1)) :
    countKey t (mapInsert t v l) = 1 := by
  induction l with
  | nil => simp [mapInsert, countKey]
  | cons hd tl ih =>
      obtain ⟨t1, w⟩ := hd
      rw [List.pairwise_cons] at hs
      obtain ⟨hall, htl⟩ := hs
      by_cases h1 : t < t1
      · have hstep : mapInsert t v ((t1, w) :: tl) = (t, v) :: (t1, w) :: tl := by
          simp [mapInsert, h1]
        have ht1 : ¬((t1 : ℝ) = t) := ne_of_gt h1
        have htl0 : List.countP (fun p => decide (p.1 = t)) tl = 0 := by
          rw [List.countP_eq_zero]
          intro a ha
          simp only [decide_eq_true_eq]
          exact ne_of_gt (lt_trans h1 (hall a ha))
        rw [hstep, countKey, List.countP_cons, List.countP_cons]
        simp [htl0, ht1]
      · by_cases h2 : t = t1
        · have hstep : mapInsert t v ((t1, w) :: tl) = (t, v) :: tl := by
            simp [mapInsert, h1, h2]
          have htl0 : List.countP (fun p => decide (p.1 = t)) tl = 0 := by
            rw [List.countP_eq_zero]
            intro a ha
            simp only [decide_eq_true_eq]
            have hlt := hall a ha
            rw [← h2] at hlt
            exact ne_of_gt hlt
          rw [hstep, countKey, List.countP_cons]
          simp [htl0]
        · have hstep : mapInsert t v ((t1, w) :: tl) =
              (t1, w) :: mapInsert t v tl := by
            simp [mapInsert, h1, h2]
          have hone := ih htl
          rw [countKey] at hone
          have hne : ¬((t1 : ℝ) = t) := fun hcontra => h2 hcontra.symm
          rw [hstep, countKey, List.countP_cons]
          simp [hone, hne]

/-- C9: two successful `registerForceImpulse` calls sharing a start time both
return SUCCESS, and afterwards the register holds exactly one entry keyed by
that time — the frame name, duration and force of the second call. -/
theorem registerForceImpulse_overwrites (e : Engine) (t : ℝ)
    (n1 n2 : String) (dt1 dt2 : ℝ) (F1 F2 : Vec3)
    (hlock : e.lockHeld = false)
    (hs : e.forcesImpulse.Pairwise (fun a b => a.1 < b.1)) :
    (e.registerForceImpulse n1 t dt1 F1).1 = Result.SUCCESS ∧
    ((e.registerForceImpulse n1 t dt1 F1).2.registerForceImpulse n2 t dt2 F2).1 =
      Result.SUCCESS ∧
    mapFind t ((e.registerForceImpulse n1 t dt1 F1).2.registerForceImpulse
      n2 t dt2 F2).2.forcesImpulse = some ⟨n2, dt2, F2⟩ ∧
    countKey t ((e.registerForceImpulse n1 t dt1 F1).2.registerForceImpulse
      n2 t dt2 F2).2.forcesImpulse = 1 := by
  simp only [Engine.registerForceImpulse, hlock, if_false, Bool.false_eq_true]
  refine ⟨by trivial, by trivial, ?_, ?_⟩
  · rw [mapInsert_mapInsert_same, mapFind_mapInsert]
  · rw [mapInsert_mapInsert_same, countKey_mapInsert_sorted _ _ _ hs]

/-- C9 witness: two same-time registrations on a fresh engine. -/
theorem registerForceImpulse_overwrites_witness :
    (eng0.registerForceImpulse "f1" (1 / 2) (1 / 100) ⟨10, 0, 0⟩).1 =
      Result.SUCCESS ∧
    ((eng0.registerForceImpulse "f1" (1 / 2) (1 / 100) ⟨10, 0, 0⟩).2.registerForceImpulse
      "f2" (1 / 2) (2 / 100) ⟨0, 10, 0⟩).1 = Result.SUCCESS ∧
    mapFind (1 / 2) ((eng0.registerForceImpulse "f1" (1 / 2) (1 / 100)
      ⟨10, 0, 0⟩).2.registerForceImpulse "f2" (1 / 2) (2 / 100)
      ⟨0, 10, 0⟩).2.forcesImpulse = some ⟨"f2", 2 / 100, ⟨0, 10, 0⟩⟩ ∧
    countKey (1 / 2) ((eng0.registerForceImpulse "f1" (1 / 2) (1 / 100)
      ⟨10, 0, 0⟩).2.registerForceImpulse "f2" (1 / 2) (2 / 100)
      ⟨0, 10, 0⟩).2.forcesImpulse = 1 :=
  registerForceImpulse_overwrites eng0 (1 / 2) "f1" "f2" (1 / 100) (2 / 100)
    ⟨10, 0, 0⟩ ⟨0, 10, 0⟩ rfl List.Pairwise.nil

/-- C10 (amended): an initialized engine rejects any `simulate` call with a
duration below 5 milliseconds with `ERROR_BAD_INPUT`, before `start` or any
`step`; the engine is returned through `stop`, which is the identity whenever
no simulation was in progress. -/
theorem simulate_short_duration_rejected (ctx : SysCtx) (fuel : ℕ) (e : Engine)
    (tEnd : ℝ) (xInit : List ℝ) (th : Bool)
    (_hinit : e.isInit = true) (hshort : tEnd < 5 / 10 ^ 3) :
    Engine.simulate ctx fuel e tEnd xInit th =
        some (Result.ERROR_BAD_INPUT, Engine.stop e) ∧
      (e.lockHeld = false → Engine.stop e = e) := by
  constructor
  · simp [Engine.simulate, hshort]
  · intro hl
    simp [Engine.stop, hl]

/-- C10 counterexample: with a simulation already running, a `simulate` call
with a 1 ms duration still returns `ERROR_BAD_INPUT`, but the engine state
does change — the unconditional `stop` on the exit path releases the model
lock. -/
theorem simulate_short_duration_claim_false :
    Engine.simulate ctx0 1 engRun (1 / 10 ^ 3) [] false =
        some (Result.ERROR_BAD_INPUT, Engine.stop engRun) ∧
      Engine.stop engRun ≠ engRun := by
  constructor
  · simp only [Engine.simulate]
    have hc : (1 : ℝ) / 10 ^ 3 < 5 / 10 ^ 3 := by norm_num
    rw [if_pos hc, if_neg (by decide : ¬(Result.ERROR_BAD_INPUT = Result.SUCCESS))]
  · intro h
    have h2 := congrArg Engine.lockHeld h
    simp [Engine.stop, engRun, eng0] at h2

/-- C10 witness: the sub-5 ms rejection on an initialized, idle engine. -/
theorem simulate_short_duration_rejected_witness :
    Engine.simulate ctx0 1 engInit (1 / 10 ^ 3) [] false =
        some (Result.ERROR_BAD_INPUT, Engine.stop engInit) ∧
      (engInit.lockHeld = false → Engine.stop engInit = engInit) :=
  simulate_short_duration_rejected ctx0 1 engInit (1 / 10 ^ 3) [] false rfl
    (by norm_num)

/-- C `fmod` equals the scaled fractional part for a nonzero denominator. -/
theorem fmod_eq_mul_fract (a : ℝ) {b : ℝ} (hb : b ≠ 0) :
    fmod a b = b * Int.fract (a / b) := by
  have hba : b * (a / b) = a := by field_simp
  rw [fmod, Int.fract, mul_sub, hba]

/-- C `fmod` is non-negative for a positive denominator. -/
theorem fmod_nonneg_of_pos (a : ℝ) {b : ℝ} (hb : 0 < b) : 0 ≤ fmod a b := by
  rw [fmod_eq_mul_fract a hb.ne']
  exact mul_nonneg hb.le (Int.fract_nonneg _)

/-- C `fmod` stays below a positive denominator. -/
theorem fmod_lt_of_pos (a : ℝ) {b : ℝ} (hb : 0 < b) : fmod a b < b := by
  rw [fmod_eq_mul_fract a hb.ne']
  calc b * Int.fract (a / b) < b * 1 :=
        mul_lt_mul_of_pos_left (Int.fract_lt_one _) hb
    _ = b := mul_one b

/-- C5: an options holder carrying an out-of-range `dtMax`, an unknown ODE
solver, or non-zero sensor and controller update periods that fail to divide
one another to within `EPS`, is rejected by `setOptions` with
`ERROR_BAD_INPUT`; the engine — options holder, derived option struct, and
every other field — is returned unchanged. -/
theorem setOptions_rejects_unchanged (e : Engine) (opts : EngineOptions)
    (hlock : e.lockHeld = false)
    (h :
      (MAX_SIMULATION_TIMESTEP < opts.stepper.dtMax ∨
        opts.stepper.dtMax < MIN_SIMULATION_TIMESTEP) ∨
      (opts.stepper.odeSolver ≠ "runge_kutta_dopri5" ∧
        opts.stepper.odeSolver ≠ "explicit_euler") ∨
      (0 < opts.stepper.sensorsUpdatePeriod ∧
        0 < opts.stepper.controllerUpdatePeriod ∧
        min (fmod opts.stepper.controllerUpdatePeriod opts.stepper.sensorsUpdatePeriod)
          (opts.stepper.sensorsUpdatePeriod -
            fmod opts.stepper.controllerUpdatePeriod opts.stepper.sensorsUpdatePeriod) > EPS ∧
        min (fmod opts.stepper.sensorsUpdatePeriod opts.stepper.controllerUpdatePeriod)
          (opts.stepper.controllerUpdatePeriod -
            fmod opts.stepper.sensorsUpdatePeriod opts.stepper.controllerUpdatePeriod) > EPS)) :
    Engine.setOptions e opts = (Result.ERROR_BAD_INPUT, e) := by
  simp only [Engine.setOptions, hlock, Bool.false_eq_true, if_false]
  by_cases g1 : MAX_SIMULATION_TIMESTEP < opts.stepper.dtMax ∨
      opts.stepper.dtMax < MIN_SIMULATION_TIMESTEP
  · rw [if_pos g1]
  · rw [if_neg g1]
    by_cases g2 : opts.stepper.odeSolver ≠ "runge_kutta_dopri5" ∧
        opts.stepper.odeSolver ≠ "explicit_euler"
    · rw [if_pos g2]
    · rw [if_neg g2]
      rcases h with h | h | h
      · exact absurd h g1
      · exact absurd h g2
      · obtain ⟨hs, hc, hm1, hm2⟩ := h
        have hf1 := lt_min_iff.1 hm1
        have hf2 := lt_min_iff.1 hm2
        have hn1 := fmod_nonneg_of_pos opts.stepper.controllerUpdatePeriod hs
        have hn2 := fmod_nonneg_of_pos opts.stepper.sensorsUpdatePeriod hc
        have hsE : opts.stepper.sensorsUpdatePeriod > EPS := by linarith [hf1.2]
        have hcE : opts.stepper.controllerUpdatePeriod > EPS := by
          linarith [hf2.2]
        by_cases g3 : (EPS < opts.stepper.sensorsUpdatePeriod ∧
            opts.stepper.sensorsUpdatePeriod < MIN_SIMULATION_TIMESTEP) ∨
            (EPS < opts.stepper.controllerUpdatePeriod ∧
              opts.stepper.controllerUpdatePeriod < MIN_SIMULATION_TIMESTEP)
        · rw [if_pos g3]
        · rw [if_neg g3,
            if_pos (show opts.stepper.sensorsUpdatePeriod > EPS ∧
              opts.stepper.controllerUpdatePeriod > EPS ∧
              (min (fmod opts.stepper.controllerUpdatePeriod opts.stepper.sensorsUpdatePeriod)
                (opts.stepper.sensorsUpdatePeriod -
                  fmod opts.stepper.controllerUpdatePeriod opts.stepper.sensorsUpdatePeriod) > EPS ∧
               min (fmod opts.stepper.sensorsUpdatePeriod opts.stepper.controllerUpdatePeriod)
                (opts.stepper.controllerUpdatePeriod -
                  fmod opts.stepper.sensorsUpdatePeriod opts.stepper.controllerUpdatePeriod) > EPS)
              from ⟨hsE, hcE, hm1, hm2⟩)]

/-- C5 witness: the default options with `dtMax = 0` are rejected and the
engine is unchanged. -/
theorem setOptions_rejects_unchanged_witness :
    Engine.setOptions engInit optsBadDtMax = (Result.ERROR_BAD_INPUT, engInit) :=
  setOptions_rejects_unchanged engInit optsBadDtMax rfl
    (Or.inl (Or.inr (by norm_num [optsBadDtMax, getDefaultOptions,
      MIN_SIMULATION_TIMESTEP])))

/-- Component-wise right-commutativity of `Vec3.add`. -/
theorem vec3_add_right_comm (a b c : Vec3) :
    (a.add b).add c = (a.add c).add b := by
  simp only [Vec3.add, Vec3.mk.injEq]
  refine ⟨by ring, by ring, by ring⟩

/-- Component-wise right-commutativity of `Vec6.add`. -/
theorem vec6_add_right_comm (a b c : Vec6) :
    (a.add b).add c = (a.add c).add b := by
  simp only [Vec6.add, Vec6.mk.injEq]
  exact ⟨vec3_add_right_comm _ _ _, vec3_add_right_comm _ _ _⟩

/-- Two single-entry force additions commute. -/
theorem addForceAt_comm (i j : ℕ) (f g : Vec6) (l : List Vec6) :
    addForceAt i f (addForceAt j g l) = addForceAt j g (addForceAt i f l) := by
  induction l generalizing i j with
  | nil => simp [addForceAt]
  | cons hd tl ih =>
      cases i with
      | zero =>
          cases j with
          | zero => simp [addForceAt, vec6_add_right_comm]
          | succ j1 => simp [addForceAt]
      | succ i1 =>
          cases j with
          | zero => simp [addForceAt]
          | succ j1 => simp [addForceAt, ih]

/-- A force addition moves through a fold of force additions. -/
theorem foldl_addForceAt_comm {α : Type} (gi : α → ℕ) (gf : α → Vec6)
    (l : List α) (idx : ℕ) (f : Vec6) (init : List Vec6) :
    l.foldl (fun acc a => addForceAt (gi a) (gf a) acc) (addForceAt idx f init) =
      addForceAt idx f
        (l.foldl (fun acc a => addForceAt (gi a) (gf a) acc) init) := by
  induction l generalizing init with
  | nil => rfl
  | cons hd tl ih =>
      simp only [List.foldl_cons]
      rw [addForceAt_comm]
      exact ih _

/-- C7: the external-force assembly adds the cursor's impulse force if and
only if `t` lies in the closed window `[tᵢ, tᵢ + dtᵢ]`; outside it the result
coincides with the assembly in which the cursor points past the register. -/
theorem computeExternalForces_impulse_window (ctx : SysCtx) (e : Engine)
    (t : ℝ) (x : List ℝ) (tI : ℝ) (imp : Impulse)
    (hcur : e.forcesImpulse.get? e.cursor = some (tI, imp)) :
    Engine.computeExternalForces ctx e t x =
      (if tI ≤ t ∧ t ≤ tI + imp.dt then
        addForceAt (ctx.frameParent (ctx.frameIdxOf imp.frameName))
          (computeFrameForceOnParentJoint ctx (x.take e.nq) (x.drop e.nq)
            (ctx.frameIdxOf imp.frameName) imp.F)
          (Engine.computeExternalForces ctx
            { e with cursor := e.forcesImpulse.length } t x)
      else
        Engine.computeExternalForces ctx
          { e with cursor := e.forcesImpulse.length } t x) := by
  have hnone : e.forcesImpulse.get? e.forcesImpulse.length = none := by
    simp [List.get?_eq_none]
  by_cases hact : tI ≤ t ∧ t ≤ tI + imp.dt
  · rw [if_pos hact]
    simp only [Engine.computeExternalForces, hcur, hnone]
    rw [if_pos hact]
    exact foldl_addForceAt_comm _ _ _ _ _ _
  · rw [if_neg hact]
    simp only [Engine.computeExternalForces, hcur, hnone]
    rw [if_neg hact]

/-- C7 witness: the window theorem instantiated at `t = 0.5` on an engine
carrying the impulse `(0.5, 0.01, [10,0,0])`. -/
theorem computeExternalForces_impulse_window_witness :
    Engine.computeExternalForces ctx0 engImp (1 / 2) [] =
      (if (1 : ℝ) / 2 ≤ 1 / 2 ∧ (1 : ℝ) / 2 ≤ 1 / 2 + (1 : ℝ) / 100 then
        addForceAt (ctx0.frameParent (ctx0.frameIdxOf "frame"))
          (computeFrameForceOnParentJoint ctx0 (List.take engImp.nq [])
            (List.drop engImp.nq []) (ctx0.frameIdxOf "frame") ⟨10, 0, 0⟩)
          (Engine.computeExternalForces ctx0
            { engImp with cursor := engImp.forcesImpulse.length } (1 / 2) [])
      else
        Engine.computeExternalForces ctx0
          { engImp with cursor := engImp.forcesImpulse.length } (1 / 2) []) :=
  computeExternalForces_impulse_window ctx0 engImp (1 / 2) [] (1 / 2)
    ⟨"frame", 1 / 100, ⟨10, 0, 0⟩⟩ rfl

/-- C3: `computeContactDynamics` returns the zero force whenever the
penetration depth is non-negative; and for a positive `dryFrictionVelEps`,
its friction coefficient is exactly the specification's three-branch
piecewise function of `s = ‖vT‖ / dryFrictionVelEps`. -/
theorem contact_zero_force_and_friction_spec :
    (∀ (co : ContactOptions) (gp : Vec3 → ℝ × Vec3) (R : Mat3) (p m : Vec3),
      0 ≤ (p.z - (gp p).1) * (Vec3.normalize (gp p).2).z →
      computeContactDynamics co gp R p m = Vec3.zero) ∧
    (∀ (co : ContactOptions) (vNorm : ℝ), 0 < co.dryFrictionVelEps →
      frictionCoeff co vNorm =
        muSpec co.frictionDry co.frictionViscous
          (vNorm / co.dryFrictionVelEps)) := by
  constructor
  · intro co gp R p m h
    simp only [computeContactDynamics, if_neg (not_lt.2 h)]
  · intro co vNorm he
    rw [frictionCoeff, muSpec]
    by_cases h1 : vNorm ≥ co.dryFrictionVelEps
    · rw [if_pos h1]
      have hs1 : ¬(vNorm / co.dryFrictionVelEps < 1) := by
        rw [not_lt]
        rw [le_div_iff₀ he]
        linarith
      rw [if_neg hs1]
      by_cases h2 : vNorm < 1.5 * co.dryFrictionVelEps
      · have hs2 : vNorm / co.dryFrictionVelEps < 1.5 := by
          rw [div_lt_iff₀ he]
          linarith
        rw [if_pos h2, if_pos hs2]
      · have hs2 : ¬(vNorm / co.dryFrictionVelEps < 1.5) := by
          rw [not_lt] at h2 ⊢
          rw [le_div_iff₀ he]
          linarith
        rw [if_neg h2, if_neg hs2]
    · have hs1 : vNorm / co.dryFrictionVelEps < 1 := by
        rw [div_lt_one he]
        exact lt_of_not_ge h1
      rw [if_neg h1, if_pos hs1]

/-- C3 witness: zero force for a frame one metre above flat ground, and the
friction law evaluated at `vNorm = 1` for the default contact options. -/
theorem contact_zero_force_and_friction_spec_witness :
    computeContactDynamics ⟨8 / 10, 1, 1 / 100, 10 ^ 6, 2 * 10 ^ 3, 1 / 10 ^ 3⟩
        defaultGroundProfile Mat3.one ⟨0, 0, 1⟩ ⟨1, 0, 0⟩ = Vec3.zero ∧
      frictionCoeff ⟨8 / 10, 1, 1 / 100, 10 ^ 6, 2 * 10 ^ 3, 1 / 10 ^ 3⟩ 1 =
        muSpec 1 (8 / 10) (1 / (1 / 100)) :=
  ⟨contact_zero_force_and_friction_spec.1 _ defaultGroundProfile Mat3.one
      ⟨0, 0, 1⟩ ⟨1, 0, 0⟩
      (by norm_num [defaultGroundProfile, Vec3.normalize, Vec3.norm, Vec3.dot,
        Vec3.smul, Real.sqrt_one]),
   contact_zero_force_and_friction_spec.2
      ⟨8 / 10, 1, 1 / 100, 10 ^ 6, 2 * 10 ^ 3, 1 / 10 ^ 3⟩ 1 (by norm_num)⟩

/-- Scaling by one is the identity. -/
theorem Vec3.smul_one (v : Vec3) : Vec3.smul 1 v = v := by
  cases v
  simp [Vec3.smul]

/-- Normalisation fixes unit vectors. -/
theorem Vec3.normalize_of_norm_one {v : Vec3} (h : v.norm = 1) :
    v.normalize = v := by
  rw [Vec3.normalize, h]
  have h1 : (1 : ℝ) / 1 = 1 := by norm_num
  rw [h1, Vec3.smul_one]

/-- A unit vector has unit self-dot-product. -/
theorem Vec3.dot_self_of_norm_one {v : Vec3} (h : v.norm = 1) :
    v.dot v = 1 := by
  have h2 : Real.sqrt (v.dot v) = 1 := h
  rwa [Real.sqrt_eq_one] at h2

/-- Scalar multiplication distributes over vector addition. -/
theorem Vec3.smul_add_vec (c : ℝ) (a b : Vec3) :
    Vec3.smul c (a.add b) = (Vec3.smul c a).add (Vec3.smul c b) := by
  simp only [Vec3.smul, Vec3.add, Vec3.mk.injEq]
  refine ⟨by ring, by ring, by ring⟩

/-- Composition of scalings. -/
theorem Vec3.smul_smul (c d : ℝ) (v : Vec3) :
    Vec3.smul c (Vec3.smul d v) = Vec3.smul (c * d) v := by
  simp only [Vec3.smul, Vec3.mk.injEq]
  refine ⟨by ring, by ring, by ring⟩

/-- C2 (amended): for a unit ground normal and a penetrating frame, the
contact force decomposes as `blend·fN·n + blend·(−μ·fN)·vT` with `vT`
orthogonal to `n`: the tangential part is `−μ·fN` times the *full*
tangential-velocity vector `vT`, not its normalisation `vT/‖vT‖`; `blend` is
the tanh smoothing factor, one when `transitionEps ≤ EPS`. -/
theorem contact_tangential_along_vT (co : ContactOptions)
    (gp : Vec3 → ℝ × Vec3) (R : Mat3) (p m : Vec3)
    (hunit : ((gp p).2).norm = 1)
    (depth : ℝ) (hdepth : depth = (p.z - (gp p).1) * ((gp p).2).z)
    (hneg : depth < 0)
    (vW : Vec3) (hvW : vW = R.mulVec m)
    (vD : ℝ) (hvD : vD = vW.dot (gp p).2)
    (fN : ℝ)
    (hfN : fN = (if vD < 0 then -co.damping * vD else 0) + -co.stiffness * depth)
    (vT : Vec3) (hvT : vT = vW.sub (Vec3.smul vD (gp p).2))
    (mu : ℝ) (hmu : mu = frictionCoeff co vT.norm)
    (blend : ℝ)
    (hblend : blend = if co.transitionEps > EPS then
      Real.tanh (2 * (-depth / co.transitionEps)) else 1) :
    computeContactDynamics co gp R p m =
        (Vec3.smul (blend * fN) (gp p).2).add
          (Vec3.smul (-(blend * (mu * fN))) vT) ∧
      vT.dot (gp p).2 = 0 := by
  have hnn := Vec3.dot_self_of_norm_one hunit
  constructor
  · simp only [computeContactDynamics, Vec3.normalize_of_norm_one hunit]
    rw [← hdepth, if_pos hneg, ← hvW, ← hvD, ← hfN, ← hvT, ← hmu]
    by_cases hb : co.transitionEps > EPS
    · rw [if_pos hb]
      have hb1 : blend = Real.tanh (2 * (-depth / co.transitionEps)) := by
        rw [hblend, if_pos hb]
      rw [← hb1, Vec3.smul_add_vec, Vec3.smul_smul, Vec3.smul_smul]
      have hsc : blend * -(mu * fN) = -(blend * (mu * fN)) := by ring
      rw [hsc]
    · rw [if_neg hb]
      have hb1 : blend = 1 := by rw [hblend, if_neg hb]
      rw [hb1, one_mul, one_mul]
  · rw [hvT, hvD]
    calc (vW.sub (Vec3.smul (vW.dot (gp p).2) (gp p).2)).dot (gp p).2
        = vW.dot (gp p).2 - vW.dot (gp p).2 * ((gp p).2).dot (gp p).2 := by
          simp only [Vec3.dot, Vec3.sub, Vec3.smul]
          ring
      _ = 0 := by rw [hnn]; ring

/-- C2 witness: the decomposition instantiated at a concrete penetrating
contact with unit normal, unit options and tangential velocity `[2,0,0]`. -/
theorem contact_tangential_along_vT_witness :
    computeContactDynamics ⟨1, 1, 1, 1, 0, 0⟩ (fun _ => (0, ⟨0, 0, 1⟩))
        Mat3.one ⟨0, 0, -1⟩ ⟨2, 0, 0⟩ =
        (Vec3.smul (1 * 1) (((fun (_ : Vec3) => ((0 : ℝ), (⟨0, 0, 1⟩ : Vec3)))
            (⟨0, 0, -1⟩ : Vec3)).2)).add
          (Vec3.smul (-(1 * (1 * 1)))
            ((Mat3.one.mulVec ⟨2, 0, 0⟩).sub
              (Vec3.smul ((Mat3.one.mulVec ⟨2, 0, 0⟩).dot ⟨0, 0, 1⟩) ⟨0, 0, 1⟩))) ∧
      ((Mat3.one.mulVec ⟨2, 0, 0⟩).sub
        (Vec3.smul ((Mat3.one.mulVec ⟨2, 0, 0⟩).dot ⟨0, 0, 1⟩) ⟨0, 0, 1⟩)).dot
        ⟨0, 0, 1⟩ = 0 := by
  have h4 : Real.sqrt 4 = 2 := by
    rw [show (4 : ℝ) = 2 ^ 2 by norm_num, Real.sqrt_sq (by norm_num : (0 : ℝ) ≤ 2)]
  have hvT : ((Mat3.one.mulVec ⟨2, 0, 0⟩).sub
      (Vec3.smul ((Mat3.one.mulVec ⟨2, 0, 0⟩).dot ⟨0, 0, 1⟩) ⟨0, 0, 1⟩)) =
      (⟨2, 0, 0⟩ : Vec3) := by
    norm_num [Mat3.mulVec, Mat3.one, Vec3.dot, Vec3.smul, Vec3.sub]
  have hnorm : ((⟨2, 0, 0⟩ : Vec3)).norm = 2 := by
    rw [Vec3.norm]
    norm_num [Vec3.dot]
    exact h4
  have hmu : frictionCoeff ⟨1, 1, 1, 1, 0, 0⟩
      (((Mat3.one.mulVec ⟨2, 0, 0⟩).sub
        (Vec3.smul ((Mat3.one.mulVec ⟨2, 0, 0⟩).dot ⟨0, 0, 1⟩) ⟨0, 0, 1⟩)).norm) =
      1 := by
    rw [hvT, hnorm]
    norm_num [frictionCoeff]
  exact contact_tangential_along_vT ⟨1, 1, 1, 1, 0, 0⟩
    (fun _ => (0, ⟨0, 0, 1⟩)) Mat3.one ⟨0, 0, -1⟩ ⟨2, 0, 0⟩
    (by norm_num [Vec3.norm, Vec3.dot, Real.sqrt_one])
    (-1) (by norm_num) (by norm_num)
    (Mat3.one.mulVec ⟨2, 0, 0⟩) rfl
    ((Mat3.one.mulVec ⟨2, 0, 0⟩).dot ⟨0, 0, 1⟩) rfl
    1 (by norm_num [Mat3.mulVec, Mat3.one, Vec3.dot])
    ((Mat3.one.mulVec ⟨2, 0, 0⟩).sub
      (Vec3.smul ((Mat3.one.mulVec ⟨2, 0, 0⟩).dot ⟨0, 0, 1⟩) ⟨0, 0, 1⟩)) rfl
    1 hmu.symm
    1 (by norm_num [EPS])

/-- C2 counterexample: at a penetrating contact with unit normal, `μ = 1`,
`fN = 1` and `vT = [2,0,0]` (so `‖vT‖ = 2`), the code returns `[-2,0,1]`
while the claimed normalised friction `fN·n − μ·fN·(vT/‖vT‖)` would give
`[-1,0,1]`: the tangential force is not normalised by `‖vT‖`. -/
theorem contact_tangential_claim_false :
    computeContactDynamics ⟨1, 1, 1, 1, 0, 0⟩ (fun _ => (0, ⟨0, 0, 1⟩))
        Mat3.one ⟨0, 0, -1⟩ ⟨2, 0, 0⟩ = ⟨-2, 0, 1⟩ ∧
      (Vec3.smul 1 ⟨0, 0, 1⟩).add
        (Vec3.smul (-(1 * 1)) (Vec3.normalize ⟨2, 0, 0⟩)) = ⟨-1, 0, 1⟩ ∧
      (⟨-2, 0, 1⟩ : Vec3) ≠ ⟨-1, 0, 1⟩ := by
  have h4 : Real.sqrt 4 = 2 := by
    rw [show (4 : ℝ) = 2 ^ 2 by norm_num, Real.sqrt_sq (by norm_num : (0 : ℝ) ≤ 2)]
  refine ⟨?_, ?_, ?_⟩
  · norm_num [computeContactDynamics, frictionCoeff, Vec3.normalize, Vec3.norm,
      Vec3.dot, Vec3.smul, Vec3.sub, Vec3.add, Mat3.mulVec, Mat3.one, EPS,
      Real.sqrt_one, h4]
  · norm_num [Vec3.normalize, Vec3.norm, Vec3.dot, Vec3.smul, Vec3.add, h4]
  · intro h
    rw [Vec3.mk.injEq] at h
    norm_num at h

/-- Committing an accepted step touches neither the option struct nor the
Kahan compensation buffer. -/
theorem commitStep_preserves (ctx : SysCtx) (e : Engine) (r : TryStepOut) :
    (commitStep ctx e r).optionsStruct = e.optionsStruct ∧
      (commitStep ctx e r).st.t_err = e.st.t_err := by
  simp only [commitStep, Engine.updateTelemetry]
  split
  · exact ⟨rfl, rfl⟩
  · exact ⟨rfl, rfl⟩

/-- The inner breakpoint-driven stepping loop preserves the option struct
and the Kahan compensation buffer. -/
theorem tryStepsTo_preserves (ctx : SysCtx) :
    ∀ (fuel : ℕ) (tNext : ℝ) (s s1 : LoopSt),
      tryStepsTo ctx fuel tNext s = some s1 →
      s1.eng.optionsStruct = s.eng.optionsStruct ∧
        s1.eng.st.t_err = s.eng.st.t_err := by
  intro fuel
  induction fuel with
  | zero =>
      intro tNext s s1 h
      simp [tryStepsTo] at h
  | succ n ih =>
      intro tNext s s1 h
      rw [tryStepsTo] at h
      by_cases hc : tNext - s.t > EPS
      · rw [if_pos hc] at h
        dsimp only at h
        repeat' split at h
        all_goals first
          | exact absurd h (by simp)
          | { have h2 := ih tNext _ s1 h
              exact ⟨h2.1.trans ((commitStep_preserves ctx s.eng _).1.trans rfl),
                h2.2.trans ((commitStep_preserves ctx s.eng _).2.trans rfl)⟩ }
          | { have h2 := ih tNext _ s1 h
              exact ⟨h2.1.trans rfl, h2.2.trans rfl⟩ }
      · rw [if_neg hc] at h
        obtain rfl : s = s1 := by simpa using h
        exact ⟨rfl, rfl⟩

/-- The free-running retry loop preserves the option struct and the Kahan
compensation buffer. -/
theorem tryUntilSuccess_preserves (ctx : SysCtx) :
    ∀ (fuel : ℕ) (s s1 : LoopSt),
      tryUntilSuccess ctx fuel s = some s1 →
      s1.eng.optionsStruct = s.eng.optionsStruct ∧
        s1.eng.st.t_err = s.eng.st.t_err := by
  intro fuel
  induction fuel with
  | zero =>
      intro s s1 h
      simp [tryUntilSuccess] at h
  | succ n ih =>
      intro s s1 h
      rw [tryUntilSuccess] at h
      dsimp only at h
      split at h
      · have h2 : s1 = ⟨commitStep ctx s.eng
            (s.eng.stepperImpl (systemOf ctx s.eng) s.eng.st.x s.eng.st.dxdt
              s.t s.eng.st.dt),
            (s.eng.stepperImpl (systemOf ctx s.eng) s.eng.st.x s.eng.st.dxdt
              s.t s.eng.st.dt).t, 0⟩ :=
          (Option.some.inj h).symm
        rw [h2]
        exact ⟨(commitStep_preserves ctx s.eng _).1,
          (commitStep_preserves ctx s.eng _).2⟩
      · split at h
        · exact absurd h (by simp)
        · have h2 := ih _ s1 h
          exact ⟨h2.1, h2.2⟩

/-- The outer integration loop of `step` preserves the option struct and the
Kahan compensation buffer. -/
theorem stepLoop_preserves (ctx : SysCtx) :
    ∀ (fuel : ℕ) (tEnd : ℝ) (s s1 : LoopSt),
      stepLoop ctx fuel tEnd s = some s1 →
      s1.eng.optionsStruct = s.eng.optionsStruct ∧
        s1.eng.st.t_err = s.eng.st.t_err := by
  intro fuel
  induction fuel with
  | zero =>
      intro tEnd s s1 h
      simp [stepLoop] at h
  | succ n ih =>
      intro tEnd s s1 h
      rw [stepLoop] at h
      by_cases hc : tEnd - s.t > EPS
      · rw [if_pos hc] at h
        dsimp only at h
        repeat' split at h
        all_goals first
          | exact absurd h (by simp)
          | { have h2 := ih tEnd _ s1 h
              rename_i heq
              have h3 := tryStepsTo_preserves ctx (n + 1) _ _ _ heq
              exact ⟨h2.1.trans (h3.1.trans (by rfl)),
                h2.2.trans (h3.2.trans (by rfl))⟩ }
          | { have h2 := ih tEnd _ s1 h
              rename_i heq
              have h3 := tryUntilSuccess_preserves ctx (n + 1) _ _ heq
              exact ⟨h2.1.trans (h3.1.trans (by rfl)),
                h2.2.trans (h3.2.trans (by rfl))⟩ }
      · rw [if_neg hc] at h
        obtain rfl : s = s1 := by simpa using h
        exact ⟨rfl, rfl⟩

/-- C4: for a `step` call that passes its entry checks and whose integration
loop completes normally, the target end time is obtained by Kahan
compensation — `stepSize_true = stepSize − t_err`, `tEnd = t + stepSize_true`
and the new compensation is `(tEnd − t) − stepSize_true` — the final stepper
time is assigned exactly `tEnd` (whatever times the loop computed), and a
telemetry sample timestamped `tEnd` is emitted at that point if and only if
`logInternalStepperSteps` is disabled. -/
theorem step_kahan_exact_exit (ctx : SysCtx) (fuel : ℕ) (e : Engine)
    (stepSizeIn : ℝ) (s1 : LoopSt)
    (hlock : e.lockHeld = true) (hinit : e.isInit = true)
    (hnan : e.st.xHasNaN = false)
    (hsz : ¬(stepSizeIn > EPS ∧ stepSizeIn < MIN_SIMULATION_TIMESTEP))
    (hloop : stepLoop ctx fuel
        (e.st.t + (e.resolveStepSize stepSizeIn - e.st.t_err))
        ⟨{ e with st := { e.st with t_err :=
            (e.st.t + (e.resolveStepSize stepSizeIn - e.st.t_err) - e.st.t) -
              (e.resolveStepSize stepSizeIn - e.st.t_err) } }, e.st.t, 0⟩ =
      some s1) :
    ∃ eFin, Engine.step ctx fuel e stepSizeIn = some (Result.SUCCESS, eFin) ∧
      eFin.st.t = e.st.t + (e.resolveStepSize stepSizeIn - e.st.t_err) ∧
      eFin.st.t_err =
        (e.st.t + (e.resolveStepSize stepSizeIn - e.st.t_err) - e.st.t) -
          (e.resolveStepSize stepSizeIn - e.st.t_err) ∧
      (e.optionsStruct.stepper.logInternalStepperSteps = false →
        ∃ entry, eFin.telemetryLog = s1.eng.telemetryLog ++ [entry] ∧
          entry.1 = e.st.t + (e.resolveStepSize stepSizeIn - e.st.t_err)) ∧
      (e.optionsStruct.stepper.logInternalStepperSteps = true →
        eFin.telemetryLog = s1.eng.telemetryLog) := by
  obtain ⟨hopt, herr⟩ := stepLoop_preserves ctx fuel _ _ s1 hloop
  dsimp only at hopt herr
  simp only [hlock, hinit, hnan] at hloop
  simp only [Engine.step, hlock, hinit, hnan]
  simp only [not_true, if_false, ite_false, ite_true, Bool.false_eq_true,
    reduceIte]
  rw [if_neg hsz]
  simp only [hloop]
  refine ⟨_, rfl, ?_, ?_, ?_, ?_⟩
  · rw [hopt]
    by_cases hlg : e.optionsStruct.stepper.logInternalStepperSteps = true
    · rw [hlg]
      simp
    · simp only [Bool.not_eq_true] at hlg
      rw [hlg]
      simp [Engine.updateTelemetry]
  · rw [hopt]
    by_cases hlg : e.optionsStruct.stepper.logInternalStepperSteps = true
    · rw [hlg]
      simp
      rw [herr]
      ring
    · simp only [Bool.not_eq_true] at hlg
      rw [hlg]
      simp [Engine.updateTelemetry]
      rw [herr]
      ring
  · intro hlg
    rw [hopt, hlg]
    simp [Engine.updateTelemetry]
  · intro hlg
    rw [hopt, hlg]
    simp

/-- C4 witness: a running engine whose Kahan buffer exactly cancels a
`MIN_SIMULATION_TIMESTEP` request, so the loop exits immediately and the
theorem applies with one unit of fuel. -/
theorem step_kahan_exact_exit_witness :
    ∃ eFin, Engine.step ctx0 1 engW MIN_SIMULATION_TIMESTEP =
        some (Result.SUCCESS, eFin) ∧
      eFin.st.t = engW.st.t +
        (engW.resolveStepSize MIN_SIMULATION_TIMESTEP - engW.st.t_err) := by
  have hloop : stepLoop ctx0 1
      (engW.st.t + (engW.resolveStepSize MIN_SIMULATION_TIMESTEP - engW.st.t_err))
      ⟨{ engW with st := { engW.st with t_err :=
          (engW.st.t + (engW.resolveStepSize MIN_SIMULATION_TIMESTEP - engW.st.t_err) -
            engW.st.t) -
          (engW.resolveStepSize MIN_SIMULATION_TIMESTEP - engW.st.t_err) } },
        engW.st.t, 0⟩ = some sW := by
    show stepLoop ctx0 (0 + 1) _ _ = some sW
    rw [stepLoop]
    rw [if_neg]
    · rfl
    · norm_num [engW, eng0, stepperState0, Engine.resolveStepSize, EPS,
        MIN_SIMULATION_TIMESTEP]
  obtain ⟨eFin, h1, h2, _⟩ := step_kahan_exact_exit ctx0 1 engW
    MIN_SIMULATION_TIMESTEP sW rfl rfl rfl
    (fun hcon => lt_irrefl _ hcon.2) hloop
  exact ⟨eFin, h1, h2⟩

end
